import Mathlib

/-!
Verification of the Chariot scenario-file decoder (crates/file_formats/scn/src/scn.rs).

The decoder reads a fixed uncompressed header, decompresses the remainder of
the stream, and then reads the body sections in order from the decompressed
buffer.  The byte-reader primitives, the decompression operation and the
sub-decoders for player data, map, player resources and player units are
external collaborators of this core; they are modelled from the spec, while
everything in scn.rs itself is translated directly.

Streams are modelled as a byte list together with a cursor position, and the
decoding monad returns, besides the result, the stream state reached when the
computation stopped, so that claims about how many bytes were consumed are
statable.
-/

/-- Modelled from the spec: the error taxonomy of the error crate (not under
src), as used by scn.rs: unrecognized version, oversized instructions,
decompression failure, running out of bytes, and errors raised inside the
collaborator sub-decoders. -/
inductive ScnError where
  | unrecognizedScenarioVersion
  | instructionsTooLarge
  | decompressionFailure
  | unexpectedEof
  | subDecodeError (code : Nat)
deriving DecidableEq

/-- Modelled from the spec: a sequential cursor over a byte stream (the
Primitive Byte Reader collaborator).  Bytes are naturals below 256; the
position records how many bytes have been consumed. -/
structure ByteStream where
  data : List Nat
  pos : Nat
deriving DecidableEq

/-- A decoding step: from a stream state, produce a result or an error,
together with the stream state at which the step stopped. -/
def DecodeM (α : Type) : Type := ByteStream → Except ScnError α × ByteStream

instance : Monad DecodeM where
  pure a := fun s => (Except.ok a, s)
  bind m f := fun s =>
    match m s with
    | (Except.ok a, t) => f a t
    | (Except.error e, t) => (Except.error e, t)

/-- Fail with the given error, consuming nothing further. -/
def decodeFail {α : Type} (e : ScnError) : DecodeM α :=
  fun s => (Except.error e, s)

/-- Little-endian unsigned 32-bit value of four bytes. -/
def u32LE (b0 b1 b2 b3 : Nat) : Nat :=
  (b0 % 256) + 256 * (b1 % 256) + 65536 * (b2 % 256) + 16777216 * (b3 % 256)

/-- Little-endian signed 32-bit value of four bytes (two-complement). -/
def i32LE (b0 b1 b2 b3 : Nat) : Int :=
  if u32LE b0 b1 b2 b3 < 2147483648 then (u32LE b0 b1 b2 b3 : Int)
  else (u32LE b0 b1 b2 b3 : Int) - 4294967296

/-- Modelled from the spec: read_u32 of the chariot_io_tools collaborator
(not under src): read four bytes at the cursor as a little-endian u32, or
fail with end of stream, consuming nothing on failure. -/
def read_u32 : DecodeM Nat := fun s =>
  match s.data.drop s.pos with
  | b0 :: b1 :: b2 :: b3 :: _ =>
      (Except.ok (u32LE b0 b1 b2 b3), ⟨s.data, s.pos + 4⟩)
  | _ => (Except.error ScnError.unexpectedEof, s)

/-- Modelled from the spec: read_i32 of the chariot_io_tools collaborator
(not under src): read four bytes at the cursor as a little-endian i32. -/
def read_i32 : DecodeM Int := fun s =>
  match s.data.drop s.pos with
  | b0 :: b1 :: b2 :: b3 :: _ =>
      (Except.ok (i32LE b0 b1 b2 b3), ⟨s.data, s.pos + 4⟩)
  | _ => (Except.error ScnError.unexpectedEof, s)

/-- Modelled from the spec: read_sized_str of the chariot_io_tools
collaborator (not under src): read exactly n bytes at the cursor as a
fixed-length string (kept as its byte list), or fail with end of stream when
fewer than n bytes remain, consuming nothing on failure. -/
def read_sized_str (n : Nat) : DecodeM (List Nat) := fun s =>
  if s.pos + n ≤ s.data.length then
    (Except.ok ((s.data.drop s.pos).take n), ⟨s.data, s.pos + n⟩)
  else (Except.error ScnError.unexpectedEof, s)

/-- Modelled from the spec: read_array of the chariot_io_tools collaborator
(not under src): read count records with the supplied per-record decoder, in
ascending order, failing on the first record failure. -/
def read_array {α : Type} (count : Nat) (f : DecodeM α) : DecodeM (List α) :=
  match count with
  | 0 => pure []
  | n + 1 => do
      let x ← f
      let xs ← read_array n f
      pure (x :: xs)

/-- Modelled from the spec: one entry of player_civs inside the player_data
collaborator crate (not under src); only the civilization id is consulted by
scn.rs. -/
structure PlayerCiv where
  civilization_id : Nat
deriving DecidableEq

/-- Modelled from the spec: the PlayerData collaborator type (not under src);
scn.rs consults only its player_civs sequence. -/
structure PlayerData where
  player_civs : List PlayerCiv
deriving DecidableEq

/-- Modelled from the spec: the Map collaborator type (not under src),
opaque to scn.rs. -/
structure Map where
  token : Nat
deriving DecidableEq

/-- Modelled from the spec: the PlayerResources collaborator type (not under
src), opaque to scn.rs. -/
structure PlayerResources where
  token : Nat
deriving DecidableEq

/-- Modelled from the spec: the PlayerUnit collaborator type (not under src),
opaque to scn.rs. -/
structure PlayerUnit where
  token : Nat
deriving DecidableEq

/-- Modelled from the spec: the external collaborators consumed by scn.rs —
the decompression boundary and the four sub-decoders.  Each sub-decoder
consumes bytes from the current cursor position and returns a typed value or
a decode error.  The decoder of scn.rs is verified for every choice of
collaborators. -/
structure Collab where
  decompress : List Nat → Except ScnError (List Nat)
  readPlayerData : DecodeM PlayerData
  readMap : DecodeM Map
  readPlayerResources : DecodeM (List PlayerResources)
  readPlayerUnit : DecodeM PlayerUnit

/-- The byte form of the single recognized version literal "1.11". -/
def version_1_11 : List Nat := [49, 46, 49, 49]

/-- Source scn.rs line 101: const REASONABLE_INSTRUCTION_LIMIT: usize = 512 * 1024. -/
def REASONABLE_INSTRUCTION_LIMIT : Nat := 512 * 1024

/-- Source scn.rs lines 103 to 112: the scenario header record. -/
structure ScenarioHeader where
  version : List Nat
  length : Nat
  save_type : Int
  last_save_time : Nat
  instructions : List Nat
  victory_type : Nat
  player_count : Nat
deriving DecidableEq

/-- Source scn.rs lines 117 to 138: ScenarioHeader::read_from_stream.
Reads the version (rejecting everything but "1.11"), then length, save_type,
last_save_time, then the declared instructions length, which is checked
against REASONABLE_INSTRUCTION_LIMIT before the instructions bytes are read,
then victory_type and player_count. -/
def ScenarioHeader.read_from_stream : DecodeM ScenarioHeader := do
  let version ← read_sized_str 4
  if version ≠ version_1_11 then
    decodeFail ScnError.unrecognizedScenarioVersion
  else do
    let length ← read_u32
    let save_type ← read_i32
    let last_save_time ← read_u32
    let ilen ← read_u32
    if ilen > REASONABLE_INSTRUCTION_LIMIT then
      decodeFail ScnError.instructionsTooLarge
    else do
      let instructions ← read_sized_str ilen
      let victory_type ← read_u32
      let player_count ← read_u32
      pure { version := version, length := length, save_type := save_type,
             last_save_time := last_save_time, instructions := instructions,
             victory_type := victory_type, player_count := player_count }

/-- The header decoder run from position 0 of a raw input. -/
def headerRun (raw : List Nat) : Except ScnError ScenarioHeader × ByteStream :=
  ScenarioHeader.read_from_stream ⟨raw, 0⟩

/-- The continuation of the header decoder after the instructions-length
ceiling check has passed (source scn.rs lines 133 to 137): attempt to read
the instructions payload of the declared length, then victory_type and
player_count. -/
def readHeaderTail (ver : List Nat) (len : Nat) (save : Int) (time : Nat)
    (ilen : Nat) : DecodeM ScenarioHeader := do
  let instructions ← read_sized_str ilen
  let victory_type ← read_u32
  let player_count ← read_u32
  pure { version := ver, length := len, save_type := save,
         last_save_time := time, instructions := instructions,
         victory_type := victory_type, player_count := player_count }

/-- Source scn.rs lines 36 to 43: the decoded scenario record. -/
structure Scenario where
  header : ScenarioHeader
  player_data : PlayerData
  player_resources : List PlayerResources
  player_units : List (List PlayerUnit)
  map : Map
deriving DecidableEq

/-- Source scn.rs lines 88 to 92: the per-player unit-group loop.  For each
of count iterations, in ascending player order, read a u32 unit count and
then that many PlayerUnit records, collecting the groups in read order. -/
def readUnitGroups (c : Collab) : Nat → DecodeM (List (List PlayerUnit))
  | 0 => pure []
  | n + 1 => do
      let unit_count ← read_u32
      let units ← read_array unit_count c.readPlayerUnit
      let rest ← readUnitGroups c n
      pure (units :: rest)

/-- Source scn.rs lines 81 to 97: the body decode run on the decompressed
buffer — a discarded u32, player_data, map, the unit-group count, the
player_resources block, then the unit-group loop. -/
def readBody (c : Collab) (header : ScenarioHeader) : DecodeM Scenario := do
  let _next_unit_id ← read_u32
  let player_data ← c.readPlayerData
  let map ← c.readMap
  let player_unit_group_count ← read_u32
  let player_resources ← c.readPlayerResources
  let player_units ← readUnitGroups c player_unit_group_count
  pure { header := header, player_data := player_data,
         player_resources := player_resources,
         player_units := player_units, map := map }

/-- Source scn.rs lines 75 to 98: Scenario::read_from_stream.  Reads the
header from the raw stream, decompresses the remainder of the raw stream,
and decodes the body exclusively from the decompressed buffer. -/
def Scenario.read_from_stream (c : Collab) (raw : List Nat) :
    Except ScnError Scenario :=
  match headerRun raw with
  | (Except.error e, _) => Except.error e
  | (Except.ok header, s) =>
    match c.decompress (s.data.drop s.pos) with
    | Except.error e => Except.error e
    | Except.ok body => (readBody c header ⟨body, 0⟩).1

/-- Source scn.rs lines 47 to 50: the player_resources accessor indexes the
vector directly with the player id (PlayerId modelled as Nat); an
out-of-range index panics in the source, modelled here as none. -/
def Scenario.player_resources_acc (scen : Scenario) (player_id : Nat) :
    Option PlayerResources :=
  scen.player_resources.get? player_id

/-- Source scn.rs lines 52 to 56: the player_units accessor, indexing
directly; out of range panics in the source, modelled as none. -/
def Scenario.player_units_acc (scen : Scenario) (player_id : Nat) :
    Option (List PlayerUnit) :=
  scen.player_units.get? player_id

/-- Source scn.rs lines 58 to 62: player_civilization_id indexes
player_data.player_civs directly; out of range panics in the source,
modelled as none. -/
def Scenario.player_civilization_id (scen : Scenario) (player_id : Nat) :
    Option Nat :=
  (scen.player_data.player_civs.get? player_id).map PlayerCiv.civilization_id

/-- Source scn.rs lines 64 to 67: player_ids is the sequence 0 up to the
length of player_units, each converted to a PlayerId (modelled as Nat). -/
def Scenario.player_ids (scen : Scenario) : List Nat :=
  (List.range scen.player_units.length).map (fun i => i)

/-- The prefix of the body decode up to and including the
player_unit_group_count read (source scn.rs lines 81 to 85), returning that
count: used to state which u32 of the decompressed body is the group count. -/
def readGroupCount (c : Collab) : DecodeM Nat := do
  let _next_unit_id ← read_u32
  let _player_data ← c.readPlayerData
  let _map ← c.readMap
  read_u32

/-- The player_unit_group_count u32 as read from a decompressed body, when
the body prefix decodes that far. -/
def groupCountOf (c : Collab) (body : List Nat) : Option Nat :=
  match (readGroupCount c ⟨body, 0⟩).1 with
  | Except.ok n => some n
  | Except.error _ => none

/-- The records of a list were produced by successive runs of one decoding
step, each starting where the previous one stopped: the read order of the
list is its list order. -/
inductive ReadsChain {α : Type} (f : DecodeM α) : ByteStream → List α → ByteStream → Prop where
  | nil : ∀ s, ReadsChain f s [] s
  | cons : ∀ s a t l u, f s = (Except.ok a, t) → ReadsChain f t l u →
      ReadsChain f s (a :: l) u

/-- The unit groups of a list were produced in ascending order, each group by
first reading a u32 count and then exactly that many PlayerUnit records in
read order. -/
inductive GroupsChain (c : Collab) : ByteStream → List (List PlayerUnit) → ByteStream → Prop where
  | nil : ∀ s, GroupsChain c s [] s
  | cons : ∀ s k t g u rest v,
      read_u32 s = (Except.ok k, t) →
      read_array k c.readPlayerUnit t = (Except.ok g, u) →
      g.length = k →
      ReadsChain c.readPlayerUnit t g u →
      GroupsChain c u rest v →
      GroupsChain c s (g :: rest) v

/-- The whole decode fails with error e exactly when the first failing stage
fails with e: either the header read fails with e, or the header succeeds and
decompression fails with e, or both succeed and the body decode fails with e. -/
def DecodeFailsWith (c : Collab) (raw : List Nat) (e : ScnError) : Prop :=
  (∃ s, headerRun raw = (Except.error e, s)) ∨
  (∃ h s, headerRun raw = (Except.ok h, s) ∧
      c.decompress (s.data.drop s.pos) = Except.error e) ∨
  (∃ h s body t, headerRun raw = (Except.ok h, s) ∧
      c.decompress (s.data.drop s.pos) = Except.ok body ∧
      readBody c h ⟨body, 0⟩ = (Except.error e, t))

/-- Concrete collaborators for witnesses: decompression is the identity, the
player data, map and resources decoders consume nothing, and a player unit is
one byte. -/
def demoReadUnit : DecodeM PlayerUnit := fun s =>
  match s.data.drop s.pos with
  | b :: _ => (Except.ok ⟨b⟩, ⟨s.data, s.pos + 1⟩)
  | [] => (Except.error ScnError.unexpectedEof, s)

/-- Trivial collaborator instance used by the concrete witnesses. -/
def trivCollab : Collab where
  decompress := fun l => Except.ok l
  readPlayerData := pure { player_civs := [] }
  readMap := pure ⟨0⟩
  readPlayerResources := pure []
  readPlayerUnit := demoReadUnit

/-- A 28-byte valid header: version "1.11", zero length, save type, save
time, an empty instructions string, zero victory type, player count 1. -/
def demoHeaderBytes : List Nat :=
  [49, 46, 49, 49] ++ [0, 0, 0, 0] ++ [0, 0, 0, 0] ++ [0, 0, 0, 0] ++
  [0, 0, 0, 0] ++ [0, 0, 0, 0] ++ [1, 0, 0, 0]

/-- A 14-byte body: reserved u32, group count 1, unit count 2, two one-byte
unit records. -/
def demoBody : List Nat :=
  [0, 0, 0, 0] ++ [1, 0, 0, 0] ++ [2, 0, 0, 0] ++ [7, 9]

/-- A complete valid raw input for the demo collaborators. -/
def demoRaw : List Nat := demoHeaderBytes ++ demoBody

/-- The header decoded from demoRaw. -/
def demoHeader : ScenarioHeader :=
  { version := version_1_11, length := 0, save_type := 0, last_save_time := 0,
    instructions := [], victory_type := 0, player_count := 1 }

/-- The scenario decoded from demoRaw with the demo collaborators. -/
def demoScen : Scenario :=
  { header := demoHeader, player_data := { player_civs := [] },
    player_resources := [], player_units := [[⟨7⟩, ⟨9⟩]], map := ⟨0⟩ }

/-- A 20-byte input whose declared instructions length is 524289. -/
def demoTooBig : List Nat :=
  [49, 46, 49, 49] ++ [0, 0, 0, 0] ++ [0, 0, 0, 0] ++ [0, 0, 0, 0] ++
  [1, 0, 8, 0]

/-- A 20-byte input whose declared instructions length is exactly 524288. -/
def demoAtLimit : List Nat :=
  [49, 46, 49, 49] ++ [0, 0, 0, 0] ++ [0, 0, 0, 0] ++ [0, 0, 0, 0] ++
  [0, 0, 8, 0]

/-- A 4-byte input with the unsupported version "1.12". -/
def demoBadVersion : List Nat := [49, 46, 49, 50]

theorem bind_run {α β : Type} (m : DecodeM α) (f : α → DecodeM β) (s : ByteStream) :
    (m >>= f) s = match m s with
      | (Except.ok a, t) => f a t
      | (Except.error e, t) => (Except.error e, t) := rfl

theorem pure_run {α : Type} (a : α) (s : ByteStream) :
    (pure a : DecodeM α) s = (Except.ok a, s) := rfl

theorem bind_ok_run {α β : Type} {m : DecodeM α} {f : α → DecodeM β}
    {s t : ByteStream} {a : α} (h : m s = (Except.ok a, t)) :
    (m >>= f) s = f a t := by
  rw [bind_run, h]

theorem bind_error_run {α β : Type} {m : DecodeM α} {f : α → DecodeM β}
    {s t : ByteStream} {e : ScnError} (h : m s = (Except.error e, t)) :
    (m >>= f) s = (Except.error e, t) := by
  rw [bind_run, h]

theorem bind_eq_ok {α β : Type} (m : DecodeM α) (f : α → DecodeM β)
    (s : ByteStream) (b : β) (u : ByteStream) :
    (m >>= f) s = (Except.ok b, u) ↔
      ∃ a t, m s = (Except.ok a, t) ∧ f a t = (Except.ok b, u) := by
  constructor
  · intro h
    rw [bind_run] at h
    rcases hm : m s with ⟨r, t⟩
    rw [hm] at h
    cases r with
    | ok a => exact ⟨a, t, rfl, h⟩
    | error e => simp [Prod.ext_iff] at h
  · rintro ⟨a, t, h1, h2⟩
    rw [bind_ok_run h1, h2]

theorem decodeFail_run {α : Type} (e : ScnError) (s : ByteStream) :
    (decodeFail e : DecodeM α) s = (Except.error e, s) := rfl

theorem read_sized_str_ok {n : Nat} {s t : ByteStream} {v : List Nat}
    (h : read_sized_str n s = (Except.ok v, t)) :
    t = ⟨s.data, s.pos + n⟩ := by
  unfold read_sized_str at h
  split at h
  · rw [Prod.ext_iff] at h
    exact h.2.symm
  · rw [Prod.ext_iff] at h
    exact absurd h.1 (by simp)

theorem read_u32_ok {s t : ByteStream} {v : Nat}
    (h : read_u32 s = (Except.ok v, t)) :
    t = ⟨s.data, s.pos + 4⟩ := by
  unfold read_u32 at h
  split at h
  · rw [Prod.ext_iff] at h
    exact h.2.symm
  · rw [Prod.ext_iff] at h
    exact absurd h.1 (by simp)

theorem read_i32_ok {s t : ByteStream} {v : Int}
    (h : read_i32 s = (Except.ok v, t)) :
    t = ⟨s.data, s.pos + 4⟩ := by
  unfold read_i32 at h
  split at h
  · rw [Prod.ext_iff] at h
    exact h.2.symm
  · rw [Prod.ext_iff] at h
    exact absurd h.1 (by simp)

theorem get?_isSome_iff {α : Type} :
    ∀ (l : List α) (n : Nat), (l.get? n).isSome ↔ n < l.length := by
  intro l
  induction l with
  | nil => intro n; cases n <;> simp [List.get?]
  | cons a l ih =>
    intro n
    cases n with
    | zero => simp [List.get?]
    | succ m => simpa [List.get?, Nat.succ_lt_succ_iff] using ih m

theorem isSome_map_iff {α β : Type} (f : α → β) (o : Option α) :
    (o.map f).isSome ↔ o.isSome := by
  cases o <;> simp

theorem get?_eq_none_of_le {α : Type} :
    ∀ (l : List α) (n : Nat), l.length ≤ n → l.get? n = none := by
  intro l
  induction l with
  | nil => intro n _; cases n <;> rfl
  | cons a l ih =>
    intro n h
    cases n with
    | zero => simp at h
    | succ m => exact ih m (by simpa using h)

/-- C8: Scenario::read_from_stream is deterministic — decoding the same byte
sequence twice with the same collaborators yields either the same error both
times or two scenarios that agree field by field. -/
theorem scenario_decode_deterministic (c : Collab) (raw : List Nat) :
    (∃ e, Scenario.read_from_stream c raw = Except.error e ∧
          Scenario.read_from_stream c raw = Except.error e) ∨
    (∃ a b, Scenario.read_from_stream c raw = Except.ok a ∧
            Scenario.read_from_stream c raw = Except.ok b ∧
            a.header = b.header ∧ a.player_data = b.player_data ∧
            a.map = b.map ∧ a.player_resources = b.player_resources ∧
            a.player_units = b.player_units) := by
  cases h : Scenario.read_from_stream c raw with
  | error e => exact Or.inl ⟨e, rfl, rfl⟩
  | ok a => exact Or.inr ⟨a, a, rfl, rfl, rfl, rfl, rfl, rfl, rfl⟩

/-- C9: the accessors player_resources, player_units and
player_civilization_id index their vectors directly with the player id: they
yield a value exactly when the id is below the length of the indexed vector,
and for every out-of-range id the source indexing panics, modelled here as
none — no error value is reported. -/
theorem accessors_require_in_range (scen : Scenario) (player_id : Nat) :
    ((scen.player_resources_acc player_id).isSome ↔
        player_id < scen.player_resources.length) ∧
    ((scen.player_units_acc player_id).isSome ↔
        player_id < scen.player_units.length) ∧
    ((scen.player_civilization_id player_id).isSome ↔
        player_id < scen.player_data.player_civs.length) ∧
    (scen.player_resources.length ≤ player_id →
        scen.player_resources_acc player_id = none) ∧
    (scen.player_units.length ≤ player_id →
        scen.player_units_acc player_id = none) ∧
    (scen.player_data.player_civs.length ≤ player_id →
        scen.player_civilization_id player_id = none) := by
  refine ⟨?_, ?_, ?_, ?_, ?_, ?_⟩
  · exact get?_isSome_iff _ _
  · exact get?_isSome_iff _ _
  · unfold Scenario.player_civilization_id
    rw [isSome_map_iff]
    exact get?_isSome_iff _ _
  · intro h
    exact get?_eq_none_of_le _ _ h
  · intro h
    exact get?_eq_none_of_le _ _ h
  · intro h
    unfold Scenario.player_civilization_id
    rw [get?_eq_none_of_le _ _ h]
    rfl

/-- C10: player_ids is exactly the ascending sequence 0, 1, ..., one id per
decoded unit group — it is empty when player_units is empty and is derived
solely from the length of player_units, unaffected by the header player_count
or by the length of player_resources. -/
theorem player_ids_is_range (scen : Scenario) :
    scen.player_ids = List.range scen.player_units.length ∧
    (scen.player_units = [] → scen.player_ids = []) ∧
    (∀ other : Scenario, other.player_units.length = scen.player_units.length →
        other.player_ids = scen.player_ids) := by
  refine ⟨?_, ?_, ?_⟩
  · unfold Scenario.player_ids
    simp
  · intro h
    unfold Scenario.player_ids
    rw [h]
    rfl
  · intro other h
    unfold Scenario.player_ids
    rw [h]

theorem headerRun_instructions_too_large (raw : List Nat) (L : Nat) (S : Int)
    (T ilen : Nat)
    (h1 : read_sized_str 4 ⟨raw, 0⟩ = (Except.ok version_1_11, ⟨raw, 4⟩))
    (h2 : read_u32 ⟨raw, 4⟩ = (Except.ok L, ⟨raw, 8⟩))
    (h3 : read_i32 ⟨raw, 8⟩ = (Except.ok S, ⟨raw, 12⟩))
    (h4 : read_u32 ⟨raw, 12⟩ = (Except.ok T, ⟨raw, 16⟩))
    (h5 : read_u32 ⟨raw, 16⟩ = (Except.ok ilen, ⟨raw, 20⟩))
    (hbig : REASONABLE_INSTRUCTION_LIMIT < ilen) :
    headerRun raw = (Except.error ScnError.instructionsTooLarge, ⟨raw, 20⟩) := by
  unfold headerRun ScenarioHeader.read_from_stream
  rw [bind_ok_run h1]
  rw [if_neg (by simp : ¬ version_1_11 ≠ version_1_11)]
  rw [bind_ok_run h2]
  rw [bind_ok_run h3]
  rw [bind_ok_run h4]
  rw [bind_ok_run h5]
  rw [if_pos hbig]
  rfl

theorem headerRun_limit_passed (raw : List Nat) (L : Nat) (S : Int)
    (T ilen : Nat)
    (h1 : read_sized_str 4 ⟨raw, 0⟩ = (Except.ok version_1_11, ⟨raw, 4⟩))
    (h2 : read_u32 ⟨raw, 4⟩ = (Except.ok L, ⟨raw, 8⟩))
    (h3 : read_i32 ⟨raw, 8⟩ = (Except.ok S, ⟨raw, 12⟩))
    (h4 : read_u32 ⟨raw, 12⟩ = (Except.ok T, ⟨raw, 16⟩))
    (h5 : read_u32 ⟨raw, 16⟩ = (Except.ok ilen, ⟨raw, 20⟩))
    (hok : ilen ≤ REASONABLE_INSTRUCTION_LIMIT) :
    headerRun raw = readHeaderTail version_1_11 L S T ilen ⟨raw, 20⟩ := by
  unfold headerRun ScenarioHeader.read_from_stream readHeaderTail
  rw [bind_ok_run h1]
  rw [if_neg (by simp : ¬ version_1_11 ≠ version_1_11)]
  rw [bind_ok_run h2]
  rw [bind_ok_run h3]
  rw [bind_ok_run h4]
  rw [bind_ok_run h5]
  rw [if_neg (by omega : ¬ ilen > REASONABLE_INSTRUCTION_LIMIT)]

/-- C2: for every input whose declared instructions length, the u32 read at
offset 16 right after last_save_time, exceeds 524288, the header decode fails
with InstructionsTooLarge, and it stops with the cursor still at offset 20 —
the end of the length field — so not one byte of the instructions payload is
requested from the stream, whatever bytes (if any) follow. -/
theorem oversized_instructions_rejected (raw : List Nat) (L : Nat) (S : Int)
    (T ilen : Nat)
    (h1 : read_sized_str 4 ⟨raw, 0⟩ = (Except.ok version_1_11, ⟨raw, 4⟩))
    (h2 : read_u32 ⟨raw, 4⟩ = (Except.ok L, ⟨raw, 8⟩))
    (h3 : read_i32 ⟨raw, 8⟩ = (Except.ok S, ⟨raw, 12⟩))
    (h4 : read_u32 ⟨raw, 12⟩ = (Except.ok T, ⟨raw, 16⟩))
    (h5 : read_u32 ⟨raw, 16⟩ = (Except.ok ilen, ⟨raw, 20⟩))
    (hbig : 524288 < ilen) :
    headerRun raw = (Except.error ScnError.instructionsTooLarge, ⟨raw, 20⟩) :=
  headerRun_instructions_too_large raw L S T ilen h1 h2 h3 h4 h5 hbig

/-- C2 witness: a concrete 20-byte input declaring 524289 instruction bytes
while carrying none is rejected with InstructionsTooLarge at offset 20. -/
theorem oversized_instructions_rejected_witness :
    headerRun demoTooBig =
      (Except.error ScnError.instructionsTooLarge, ⟨demoTooBig, 20⟩) :=
  oversized_instructions_rejected demoTooBig 0 0 0 524289
    (by rfl) (by rfl) (by rfl) (by rfl) (by rfl) (by decide)

/-- C3: for every input whose first four bytes are present but are not
exactly "1.11" — including any newer version — the header decode fails with
UnrecognizedScenarioVersion with the cursor at offset 4, so no byte beyond
the four version bytes is consumed, and the whole scenario decode fails with
the same error for every choice of collaborators. -/
theorem version_mismatch_rejected (c : Collab) (raw : List Nat) (v : List Nat)
    (h1 : read_sized_str 4 ⟨raw, 0⟩ = (Except.ok v, ⟨raw, 4⟩))
    (hne : v ≠ version_1_11) :
    headerRun raw =
      (Except.error ScnError.unrecognizedScenarioVersion, ⟨raw, 4⟩) ∧
    Scenario.read_from_stream c raw =
      Except.error ScnError.unrecognizedScenarioVersion := by
  have hh : headerRun raw =
      (Except.error ScnError.unrecognizedScenarioVersion, ⟨raw, 4⟩) := by
    unfold headerRun ScenarioHeader.read_from_stream
    rw [bind_ok_run h1]
    rw [if_pos hne]
    rfl
  refine ⟨hh, ?_⟩
  unfold Scenario.read_from_stream
  rw [hh]

/-- C3 witness: the four bytes of "1.12" are rejected with the cursor at
offset 4, and the whole decode fails the same way. -/
theorem version_mismatch_rejected_witness :
    headerRun demoBadVersion =
      (Except.error ScnError.unrecognizedScenarioVersion, ⟨demoBadVersion, 4⟩) ∧
    Scenario.read_from_stream trivCollab demoBadVersion =
      Except.error ScnError.unrecognizedScenarioVersion :=
  version_mismatch_rejected trivCollab demoBadVersion [49, 46, 49, 50]
    (by rfl) (by decide)

/-- C6: the instructions ceiling is inclusive — a declared length of exactly
524288 passes the check and the decoder goes on to attempt the payload read
(the header decode continues as readHeaderTail, whose first step reads the
524288 payload bytes), while a declared length of 524289 fails with
InstructionsTooLarge at offset 20. -/
theorem instruction_limit_inclusive (rawA rawB : List Nat)
    (LA : Nat) (SA : Int) (TA : Nat) (LB : Nat) (SB : Int) (TB : Nat)
    (hA1 : read_sized_str 4 ⟨rawA, 0⟩ = (Except.ok version_1_11, ⟨rawA, 4⟩))
    (hA2 : read_u32 ⟨rawA, 4⟩ = (Except.ok LA, ⟨rawA, 8⟩))
    (hA3 : read_i32 ⟨rawA, 8⟩ = (Except.ok SA, ⟨rawA, 12⟩))
    (hA4 : read_u32 ⟨rawA, 12⟩ = (Except.ok TA, ⟨rawA, 16⟩))
    (hA5 : read_u32 ⟨rawA, 16⟩ = (Except.ok 524288, ⟨rawA, 20⟩))
    (hB1 : read_sized_str 4 ⟨rawB, 0⟩ = (Except.ok version_1_11, ⟨rawB, 4⟩))
    (hB2 : read_u32 ⟨rawB, 4⟩ = (Except.ok LB, ⟨rawB, 8⟩))
    (hB3 : read_i32 ⟨rawB, 8⟩ = (Except.ok SB, ⟨rawB, 12⟩))
    (hB4 : read_u32 ⟨rawB, 12⟩ = (Except.ok TB, ⟨rawB, 16⟩))
    (hB5 : read_u32 ⟨rawB, 16⟩ = (Except.ok 524289, ⟨rawB, 20⟩)) :
    headerRun rawA = readHeaderTail version_1_11 LA SA TA 524288 ⟨rawA, 20⟩ ∧
    headerRun rawB =
      (Except.error ScnError.instructionsTooLarge, ⟨rawB, 20⟩) := by
  constructor
  · exact headerRun_limit_passed rawA LA SA TA 524288 hA1 hA2 hA3 hA4 hA5
      (by norm_num [REASONABLE_INSTRUCTION_LIMIT])
  · exact headerRun_instructions_too_large rawB LB SB TB 524289 hB1 hB2 hB3
      hB4 hB5 (by norm_num [REASONABLE_INSTRUCTION_LIMIT])

/-- C6 witness: with 20-byte inputs declaring 524288 and 524289 instruction
bytes, the first proceeds to the payload read and the second is rejected. -/
theorem instruction_limit_inclusive_witness :
    headerRun demoAtLimit =
      readHeaderTail version_1_11 0 0 0 524288 ⟨demoAtLimit, 20⟩ ∧
    headerRun demoTooBig =
      (Except.error ScnError.instructionsTooLarge, ⟨demoTooBig, 20⟩) :=
  instruction_limit_inclusive demoAtLimit demoTooBig 0 0 0 0 0 0
    (by rfl) (by rfl) (by rfl) (by rfl) (by rfl)
    (by rfl) (by rfl) (by rfl) (by rfl) (by rfl)

theorem read_array_ok {α : Type} (f : DecodeM α) :
    ∀ (n : Nat) (s : ByteStream) (l : List α) (t : ByteStream),
      read_array n f s = (Except.ok l, t) →
      l.length = n ∧ ReadsChain f s l t := by
  intro n
  induction n with
  | zero =>
    intro s l t h
    simp only [read_array] at h
    rw [pure_run, Prod.ext_iff] at h
    obtain ⟨h1, h2⟩ := h
    injection h1 with h1
    subst h1
    subst h2
    exact ⟨rfl, ReadsChain.nil s⟩
  | succ n ih =>
    intro s l t h
    simp only [read_array] at h
    rw [bind_eq_ok] at h
    obtain ⟨x, s1, hx, h⟩ := h
    rw [bind_eq_ok] at h
    obtain ⟨xs, s2, hxs, h⟩ := h
    rw [pure_run, Prod.ext_iff] at h
    obtain ⟨h1, h2⟩ := h
    injection h1 with h1
    subst h1
    subst h2
    obtain ⟨hlen, hchain⟩ := ih s1 xs s2 hxs
    exact ⟨by simp [hlen], ReadsChain.cons s x s1 xs s2 hx hchain⟩

theorem readUnitGroups_ok (c : Collab) :
    ∀ (n : Nat) (s : ByteStream) (l : List (List PlayerUnit)) (t : ByteStream),
      readUnitGroups c n s = (Except.ok l, t) →
      l.length = n ∧ GroupsChain c s l t := by
  intro n
  induction n with
  | zero =>
    intro s l t h
    simp only [readUnitGroups] at h
    rw [pure_run, Prod.ext_iff] at h
    obtain ⟨h1, h2⟩ := h
    injection h1 with h1
    subst h1
    subst h2
    exact ⟨rfl, GroupsChain.nil s⟩
  | succ n ih =>
    intro s l t h
    simp only [readUnitGroups] at h
    rw [bind_eq_ok] at h
    obtain ⟨k, s1, hk, h⟩ := h
    rw [bind_eq_ok] at h
    obtain ⟨g, s2, hg, h⟩ := h
    rw [bind_eq_ok] at h
    obtain ⟨rest, s3, hrest, h⟩ := h
    rw [pure_run, Prod.ext_iff] at h
    obtain ⟨h1, h2⟩ := h
    injection h1 with h1
    subst h1
    subst h2
    obtain ⟨hglen, hgchain⟩ := read_array_ok c.readPlayerUnit k s1 g s2 hg
    obtain ⟨hlen, hchain⟩ := ih s2 rest s3 hrest
    exact ⟨by simp [hlen],
      GroupsChain.cons s k s1 g s2 rest s3 hk hg hglen hgchain hchain⟩

theorem read_from_stream_ok_inv (c : Collab) (raw : List Nat) (scen : Scenario)
    (h : Scenario.read_from_stream c raw = Except.ok scen) :
    ∃ header s body t,
      headerRun raw = (Except.ok header, s) ∧
      c.decompress (s.data.drop s.pos) = Except.ok body ∧
      readBody c header ⟨body, 0⟩ = (Except.ok scen, t) := by
  unfold Scenario.read_from_stream at h
  split at h
  · simp at h
  · next header s heq =>
    split at h
    · simp at h
    · next body heq2 =>
      rcases hb : readBody c header ⟨body, 0⟩ with ⟨rb, t⟩
      replace h : rb = Except.ok scen := by rw [hb] at h; exact h
      subst h
      exact ⟨header, s, body, t, heq, heq2, hb⟩

theorem readBody_ok_decomp (c : Collab) (header : ScenarioHeader)
    (body : List Nat) (scen : Scenario) (tEnd : ByteStream)
    (h : readBody c header ⟨body, 0⟩ = (Except.ok scen, tEnd)) :
    scen.header = header ∧
    ∃ u s1 s2 s3 n s4 s5,
      read_u32 ⟨body, 0⟩ = (Except.ok u, s1) ∧
      c.readPlayerData s1 = (Except.ok scen.player_data, s2) ∧
      c.readMap s2 = (Except.ok scen.map, s3) ∧
      read_u32 s3 = (Except.ok n, s4) ∧
      c.readPlayerResources s4 = (Except.ok scen.player_resources, s5) ∧
      readUnitGroups c n s5 = (Except.ok scen.player_units, tEnd) := by
  unfold readBody at h
  rw [bind_eq_ok] at h
  obtain ⟨u, s1, hu, h⟩ := h
  rw [bind_eq_ok] at h
  obtain ⟨pd, s2, hpd, h⟩ := h
  rw [bind_eq_ok] at h
  obtain ⟨mp, s3, hmp, h⟩ := h
  rw [bind_eq_ok] at h
  obtain ⟨n, s4, hn, h⟩ := h
  rw [bind_eq_ok] at h
  obtain ⟨prs, s5, hprs, h⟩ := h
  rw [bind_eq_ok] at h
  obtain ⟨pus, s6, hpus, h⟩ := h
  rw [pure_run, Prod.ext_iff] at h
  obtain ⟨h1, h2⟩ := h
  injection h1 with h1
  subst h1
  subst h2
  exact ⟨rfl, u, s1, s2, s3, n, s4, s5, hu, hpd, hmp, hn, hprs, hpus⟩

/-- C1: for every input that decodes through all three stages — a header
whose version bytes are "1.11" (any header success forces that), successful
decompression, and a body that decodes without error — the whole decode
returns Ok, and the length of player_units equals the
player_unit_group_count u32 read from the decompressed body. -/
theorem valid_input_group_count (c : Collab) (raw : List Nat)
    (header : ScenarioHeader) (s : ByteStream) (body : List Nat)
    (scen : Scenario) (tEnd : ByteStream)
    (hh : headerRun raw = (Except.ok header, s))
    (hd : c.decompress (s.data.drop s.pos) = Except.ok body)
    (hb : readBody c header ⟨body, 0⟩ = (Except.ok scen, tEnd)) :
    Scenario.read_from_stream c raw = Except.ok scen ∧
    groupCountOf c body = some scen.player_units.length := by
  obtain ⟨-, u, s1, s2, s3, n, s4, s5, hu, hpd, hmp, hn, hprs, hpus⟩ :=
    readBody_ok_decomp c header body scen tEnd hb
  constructor
  · simp only [Scenario.read_from_stream, hh, hd, hb]
  · have hgc : readGroupCount c ⟨body, 0⟩ = (Except.ok n, s4) := by
      unfold readGroupCount
      rw [bind_ok_run hu]
      rw [bind_ok_run hpd]
      rw [bind_ok_run hmp]
      exact hn
    have hlen := (readUnitGroups_ok c n s5 scen.player_units tEnd hpus).1
    unfold groupCountOf
    rw [hgc, hlen]

/-- C1 witness: the 42-byte demoRaw input decodes to demoScen, whose single
unit group matches the group count 1 read from the decompressed body. -/
theorem valid_input_group_count_witness :
    Scenario.read_from_stream trivCollab demoRaw = Except.ok demoScen ∧
    groupCountOf trivCollab demoBody = some demoScen.player_units.length :=
  valid_input_group_count trivCollab demoRaw demoHeader ⟨demoRaw, 28⟩ demoBody
    demoScen ⟨demoBody, 14⟩ (by rfl) (by rfl) (by rfl)

/-- C4: the whole decode returns an error e exactly when its first failing
stage fails with e — the header read, the decompression, or the body decode
(covering every primitive read and sub-decoder call inside it) — and in that
case it returns no Scenario at all, the result being the propagated error
itself: no partially populated scenario is ever exposed. -/
theorem decode_error_is_first_failure (c : Collab) (raw : List Nat)
    (e : ScnError) :
    Scenario.read_from_stream c raw = Except.error e ↔
      DecodeFailsWith c raw e := by
  constructor
  · intro h
    unfold Scenario.read_from_stream at h
    split at h
    · next e2 sE heq =>
      injection h with h
      subst h
      exact Or.inl ⟨sE, heq⟩
    · next header s heq =>
      split at h
      · next e2 heq2 =>
        injection h with h
        subst h
        exact Or.inr (Or.inl ⟨header, s, heq, heq2⟩)
      · next body heq2 =>
        rcases hb : readBody c header ⟨body, 0⟩ with ⟨rb, t⟩
        replace h : rb = Except.error e := by rw [hb] at h; exact h
        subst h
        exact Or.inr (Or.inr ⟨header, s, body, t, heq, heq2, hb⟩)
  · intro h
    rcases h with ⟨s, hs⟩ | ⟨header, s, hh, hdec⟩ |
      ⟨header, s, body, t, hh, hdec, hbody⟩
    · simp only [Scenario.read_from_stream, hs]
    · simp only [Scenario.read_from_stream, hh, hdec]
    · simp only [Scenario.read_from_stream, hh, hdec, hbody]

/-- C5: whenever the decode succeeds, player_units was produced by the
unit-group loop run for exactly its length many iterations, and it satisfies
GroupsChain: in ascending index order, iteration i first reads a u32 unit
count and then exactly that many PlayerUnit records, whose read order is the
order inside group i — so each group has exactly its declared length. -/
theorem unit_groups_in_order (c : Collab) (raw : List Nat) (scen : Scenario)
    (h : Scenario.read_from_stream c raw = Except.ok scen) :
    ∃ n s5 tEnd,
      readUnitGroups c n s5 = (Except.ok scen.player_units, tEnd) ∧
      scen.player_units.length = n ∧
      GroupsChain c s5 scen.player_units tEnd := by
  obtain ⟨header, s, body, tEnd, hh, hd, hb⟩ :=
    read_from_stream_ok_inv c raw scen h
  obtain ⟨-, u, s1, s2, s3, n, s4, s5, hu, hpd, hmp, hn, hprs, hpus⟩ :=
    readBody_ok_decomp c header body scen tEnd hb
  obtain ⟨hlen, hchain⟩ := readUnitGroups_ok c n s5 scen.player_units tEnd hpus
  exact ⟨n, s5, tEnd, hpus, hlen, hchain⟩

/-- C5 witness: decoding demoRaw yields the unit groups of demoScen through
the loop, with the chain of counted reads. -/
theorem unit_groups_in_order_witness :
    ∃ n s5 tEnd,
      readUnitGroups trivCollab n s5 =
        (Except.ok demoScen.player_units, tEnd) ∧
      demoScen.player_units.length = n ∧
      GroupsChain trivCollab s5 demoScen.player_units tEnd :=
  unit_groups_in_order trivCollab demoRaw demoScen (by rfl)

/-- C7: once the header is consumed and the remainder decompressed, the whole
decode result is the body decode of the decompressed buffer alone — the
original stream is never consulted again — and on success the body was read
in strict sequential order, each section starting exactly where the previous
one stopped: the discarded u32, player_data, map, the group-count u32, the
single player_resources call, then the per-player unit lists. -/
theorem body_sections_sequential (c : Collab) (raw : List Nat)
    (header : ScenarioHeader) (s : ByteStream) (body : List Nat)
    (scen : Scenario) (tEnd : ByteStream)
    (hh : headerRun raw = (Except.ok header, s))
    (hd : c.decompress (s.data.drop s.pos) = Except.ok body)
    (hb : readBody c header ⟨body, 0⟩ = (Except.ok scen, tEnd)) :
    Scenario.read_from_stream c raw = (readBody c header ⟨body, 0⟩).1 ∧
    ∃ u s1 s2 s3 n s4 s5,
      read_u32 ⟨body, 0⟩ = (Except.ok u, s1) ∧
      c.readPlayerData s1 = (Except.ok scen.player_data, s2) ∧
      c.readMap s2 = (Except.ok scen.map, s3) ∧
      read_u32 s3 = (Except.ok n, s4) ∧
      c.readPlayerResources s4 = (Except.ok scen.player_resources, s5) ∧
      readUnitGroups c n s5 = (Except.ok scen.player_units, tEnd) := by
  constructor
  · simp only [Scenario.read_from_stream, hh, hd]
  · exact (readBody_ok_decomp c header body scen tEnd hb).2

/-- C7 witness: the demoRaw decode equals the body decode of the
decompressed demo body, and the demo body decomposes into the six sequential
sections. -/
theorem body_sections_sequential_witness :
    Scenario.read_from_stream trivCollab demoRaw =
      (readBody trivCollab demoHeader ⟨demoBody, 0⟩).1 ∧
    ∃ u s1 s2 s3 n s4 s5,
      read_u32 ⟨demoBody, 0⟩ = (Except.ok u, s1) ∧
      trivCollab.readPlayerData s1 = (Except.ok demoScen.player_data, s2) ∧
      trivCollab.readMap s2 = (Except.ok demoScen.map, s3) ∧
      read_u32 s3 = (Except.ok n, s4) ∧
      trivCollab.readPlayerResources s4 =
        (Except.ok demoScen.player_resources, s5) ∧
      readUnitGroups trivCollab n s5 =
        (Except.ok demoScen.player_units, ⟨demoBody, 14⟩) :=
  body_sections_sequential trivCollab demoRaw demoHeader ⟨demoRaw, 28⟩
    demoBody demoScen ⟨demoBody, 14⟩ (by rfl) (by rfl) (by rfl)
